import Mathlib

/-!
Verification of the shopping-cart core of the store app
(`server/apps/store/models.py` and `server/apps/store/views.py`).

Modelling conventions:
* The three product models (`Book`, `MusicAlbum`, `SoftwareLicense`) share the
  cart-relevant contract (id, `price_in_euros`, `weight_in_kilograms`); the
  variant is kept as a kind tag (`ContentType` in Django).
* `DecimalField(max_digits=10, decimal_places=2)` values are represented as
  integers scaled by 100 (hundredths); all arithmetic the cart performs on
  them (sums and products with integer quantities) is exact, so this is
  faithful.
* UUIDs are represented as `Nat`.
* The database is explicit state: the product catalog is a list of products,
  one cart's item rows are a list of `CartItem`s (`ShoppingCartItem` rows with
  the `cart` foreign key fixed), and where several carts matter the item table
  is a list of `(cartId, CartItem)` pairs.
-/

namespace Store

/-- The kind tag of a product: Django's `ContentType` restricted to the three
product models referenced by `ShoppingCartItem.content_type`. -/
inductive ProductKind : Type
  | book
  | musicalbum
  | softwarelicense
  deriving DecidableEq, Repr

/-- The cart-relevant fields shared by `Book`, `MusicAlbum` and
`SoftwareLicense`: primary key, `price_in_euros`, `weight_in_kilograms`
(decimals scaled by 100). -/
structure Product : Type where
  kind : ProductKind
  id : Nat
  price_in_euros : Int
  weight_in_kilograms : Int
  deriving DecidableEq, Repr

/-- The product tables: the rows the generic foreign key
(`content_type`, `object_id`) can resolve against. -/
def Catalog : Type := List Product

/-- One `ShoppingCartItem` row (the `cart` foreign key is implicit: a cart's
item set is a `List CartItem`).  `product_price` / `product_weight` are the
cached decimal snapshots. -/
structure CartItem : Type where
  content_type : ProductKind
  object_id : Nat
  quantity : Nat
  product_price : Int
  product_weight : Int
  deriving DecidableEq, Repr

/-- Resolution of the generic foreign key `GenericForeignKey('content_type',
'object_id')`: look up the product row with this kind and id, `none` when the
row does not exist (deleted product). -/
def resolve (cat : Catalog) (k : ProductKind) (i : Nat) : Option Product :=
  match cat with
  | [] => none
  | p :: rest => if p.kind = k ∧ p.id = i then some p else resolve rest k i

/-- `ShoppingCartItem.save` (models.py:176-181): before the row is written,
`if self.product:` refresh `product_price` / `product_weight` from the live
product; when the generic foreign key does not resolve the cached values are
left as they are. -/
def save (cat : Catalog) (it : CartItem) : CartItem :=
  match resolve cat it.content_type it.object_id with
  | some p => { it with product_price := p.price_in_euros,
                        product_weight := p.weight_in_kilograms }
  | none => it

/-- The `get` part of `ShoppingCartItem.objects.get_or_create(cart=self,
content_type=..., object_id=...)` and of `ShoppingCartItem.objects.get(...)`:
the row of this cart with this (content_type, object_id) key, if any (the
`unique_together` constraint makes it unique). -/
def findItem (k : ProductKind) (i : Nat) : List CartItem → Option CartItem
  | [] => none
  | it :: rest => if it.content_type = k ∧ it.object_id = i then some it
                  else findItem k i rest

/-- An UPDATE of the (unique) row with key (k, i): replace the first matching
row by `new`, leaving every other row untouched. -/
def replaceItem (k : ProductKind) (i : Nat) (new : CartItem) :
    List CartItem → List CartItem
  | [] => []
  | it :: rest => if it.content_type = k ∧ it.object_id = i then new :: rest
                  else it :: replaceItem k i new rest

/-- `cart_item.delete()`: remove the (unique) row with key (k, i). -/
def deleteItem (k : ProductKind) (i : Nat) : List CartItem → List CartItem
  | [] => []
  | it :: rest => if it.content_type = k ∧ it.object_id = i then rest
                  else it :: deleteItem k i rest

/-- `ShoppingCart.add_product` (models.py:53-84).  `get_or_create` on the key
(cart, content_type, object_id) with defaults quantity / `product_price` /
`product_weight` taken from the passed product instance; on create the model's
`save` override runs (Django `create` calls `save`), on an existing row the
quantity is incremented and the row re-saved.  Returns the new cart state and
the created or updated item. -/
def add_product (cat : Catalog) (cart : List CartItem) (product : Product)
    (quantity : Nat) : List CartItem × CartItem :=
  match findItem product.kind product.id cart with
  | some cart_item =>
      let updated := save cat { cart_item with quantity := cart_item.quantity + quantity }
      (replaceItem product.kind product.id updated cart, updated)
  | none =>
      let created := save cat
        { content_type := product.kind
          object_id := product.id
          quantity := quantity
          product_price := product.price_in_euros
          product_weight := product.weight_in_kilograms }
      (cart ++ [created], created)

/-- `ShoppingCart.remove_product` (models.py:86-116).  Missing row: return
`false` (the `DoesNotExist` branch), no state change.  `quantity <= quantity`
requested: delete the row and return `true`.  Otherwise decrement and re-save,
returning `true`. -/
def remove_product (cat : Catalog) (cart : List CartItem) (product : Product)
    (quantity : Nat) : List CartItem × Bool :=
  match findItem product.kind product.id cart with
  | none => (cart, false)
  | some cart_item =>
      if cart_item.quantity ≤ quantity then
        (deleteItem product.kind product.id cart, true)
      else
        (replaceItem product.kind product.id
          (save cat { cart_item with quantity := cart_item.quantity - quantity }) cart,
         true)

/-- The SQL aggregate `items.aggregate(total=Sum(F('quantity') *
F('product_price')))['total']`: `none` when the cart has no rows, otherwise
the sum of `quantity * product_price`. -/
def aggregate_price : List CartItem → Option Int
  | [] => none
  | items => some ((items.map fun it => (it.quantity : Int) * it.product_price).sum)

/-- The SQL aggregate for `Sum(F('quantity') * F('product_weight'))`. -/
def aggregate_weight : List CartItem → Option Int
  | [] => none
  | items => some ((items.map fun it => (it.quantity : Int) * it.product_weight).sum)

/-- Python's `total or 0`: `0` when the aggregate is `None` (and when it is a
falsy zero), otherwise the value. -/
def orZero : Option Int → Int
  | none => 0
  | some t => if t = 0 then 0 else t

/-- `ShoppingCart.calculate_total_price` (models.py:118-128). -/
def calculate_total_price (cart : List CartItem) : Int :=
  orZero (aggregate_price cart)

/-- `ShoppingCart.calculate_total_weight` (models.py:130-140). -/
def calculate_total_weight (cart : List CartItem) : Int :=
  orZero (aggregate_weight cart)

/-- `ShoppingCartViewSet.get_totals` (views.py:108-120): total price, total
weight and `items.count()`. -/
def get_totals (cart : List CartItem) : Int × Int × Nat :=
  (calculate_total_price cart, calculate_total_weight cart, cart.length)

/-- The whole `ShoppingCartItem` table: rows tagged with the id of the owning
cart. -/
def ItemTable : Type := List (Nat × CartItem)

/-- The rows of one cart (the reverse accessor `self.items`). -/
def cartItems (table : ItemTable) (cartId : Nat) : List CartItem :=
  (table.filter fun e => decide (e.1 = cartId)).map Prod.snd

/-- `ShoppingCartViewSet.clear_cart` (views.py:137-152):
`cart.items.all().delete()` removes exactly this cart's rows from the item
table. -/
def clear_cart (table : ItemTable) (cartId : Nat) : ItemTable :=
  table.filter fun e => decide (¬ e.1 = cartId)

/-- The error taxonomy of the boundary layer that the upsert path can raise
before touching the store. -/
inductive CartError : Type
  | invalidQuantity
  deriving DecidableEq, Repr

/-- Modelled from the spec: the quantity validation of `AddProductSerializer`
(`server/apps/store/serializers.py`, which is not part of the sources) —
"quantity supplied to upsert must be ≥ 1; callers violating this fail with
`InvalidQuantity`"; on failure the view returns 400 before
`cart.add_product` runs, so no CartItem is created or modified.  On success
the validated quantity is handed to `ShoppingCart.add_product`. -/
def upsert (cat : Catalog) (cart : List CartItem) (product : Product)
    (quantity : Int) : List CartItem × Except CartError CartItem :=
  if quantity < 1 then
    (cart, Except.error CartError.invalidQuantity)
  else
    let r := add_product cat cart product quantity.toNat
    (r.1, Except.ok r.2)

/-- The key of a cart row, the part of the `unique_together ['cart',
'content_type', 'object_id']` constraint inside one cart. -/
def itemKey (it : CartItem) : ProductKind × Nat := (it.content_type, it.object_id)

/-- Quantity invariant of §4.4 of the spec: every row present in a cart has
quantity ≥ 1. -/
def cartInv (cart : List CartItem) : Prop :=
  ∀ it ∈ cart, 1 ≤ it.quantity

/-- Per-cart uniqueness invariant: no two rows of the cart share a
(content_type, object_id) key. -/
def keysUnique (cart : List CartItem) : Prop :=
  (cart.map itemKey).Nodup

instance (cart : List CartItem) : Decidable (cartInv cart) :=
  List.decidableBAll _ cart

instance (cart : List CartItem) : Decidable (keysUnique cart) :=
  List.nodupDecidable _

/-! ### Example data used by the witnesses -/

/-- An example book row: price 10.00, weight 1.50 (scaled by 100). -/
def exBook : Product := ⟨ProductKind.book, 1, 1000, 150⟩

/-- The same book after a price/weight change in the catalog. -/
def exBook' : Product := ⟨ProductKind.book, 1, 1200, 175⟩

/-- An example album row. -/
def exAlbum : Product := ⟨ProductKind.musicalbum, 2, 2550, 20⟩

/-- A catalog holding the example book and album. -/
def exCatalog : Catalog := [exBook, exAlbum]

/-- A catalog where the book's price and weight have changed. -/
def exCatalog' : Catalog := [exBook', exAlbum]

/-- A cart row for the example book, quantity 2, caches from `exBook`. -/
def exItemBook : CartItem := ⟨ProductKind.book, 1, 2, 1000, 150⟩

/-- A cart row for the example album, quantity 1. -/
def exItemAlbum : CartItem := ⟨ProductKind.musicalbum, 2, 1, 2550, 20⟩

/-! ### Helper lemmas -/

theorem orZero_some (t : Int) : orZero (some t) = t := by
  by_cases h : t = 0 <;> simp [orZero, h]

theorem cartItems_clear_cart (table : ItemTable) (cartId cid : Nat) :
    cartItems (clear_cart table cartId) cid =
      if cid = cartId then [] else cartItems table cid := by
  induction table with
  | nil => simp [cartItems, clear_cart]
  | cons e rest ih =>
    by_cases h1 : e.1 = cartId
    · by_cases h2 : cid = cartId <;>
        simp_all [cartItems, clear_cart, List.filter_cons]
      rw [if_neg fun hc => h2 hc.symm]
    · by_cases h2 : e.1 = cid <;>
        simp_all [cartItems, clear_cart, List.filter_cons]

theorem clear_cart_idem (table : ItemTable) (cartId : Nat) :
    clear_cart (clear_cart table cartId) cartId = clear_cart table cartId := by
  induction table with
  | nil => rfl
  | cons e rest ih =>
    by_cases h : e.1 = cartId <;> simp_all [clear_cart, List.filter_cons]

theorem findItem_some {k : ProductKind} {i : Nat} {l : List CartItem} {it : CartItem}
    (h : findItem k i l = some it) :
    it.content_type = k ∧ it.object_id = i ∧ it ∈ l := by
  induction l with
  | nil => simp [findItem] at h
  | cons x xs ih =>
    by_cases hx : x.content_type = k ∧ x.object_id = i
    · rw [findItem, if_pos hx] at h
      injection h with h
      subst h
      exact ⟨hx.1, hx.2, List.mem_cons_self _ _⟩
    · rw [findItem, if_neg hx] at h
      obtain ⟨h1, h2, h3⟩ := ih h
      exact ⟨h1, h2, List.mem_cons_of_mem _ h3⟩

theorem findItem_none {k : ProductKind} {i : Nat} {l : List CartItem}
    (h : findItem k i l = none) :
    ∀ x ∈ l, ¬(x.content_type = k ∧ x.object_id = i) := by
  induction l with
  | nil => intro x hx; simp at hx
  | cons y ys ih =>
    by_cases hy : y.content_type = k ∧ y.object_id = i
    · rw [findItem, if_pos hy] at h
      simp at h
    · rw [findItem, if_neg hy] at h
      intro x hx
      rcases List.mem_cons.mp hx with rfl | hx'
      · exact hy
      · exact ih h x hx'

theorem mem_replaceItem {k : ProductKind} {i : Nat} {n : CartItem}
    {l : List CartItem} {x : CartItem}
    (h : x ∈ replaceItem k i n l) : x = n ∨ x ∈ l := by
  induction l with
  | nil => simp [replaceItem] at h
  | cons y ys ih =>
    rw [replaceItem] at h
    split at h
    · rcases List.mem_cons.mp h with rfl | hx
      · exact Or.inl rfl
      · exact Or.inr (List.mem_cons_of_mem _ hx)
    · rcases List.mem_cons.mp h with rfl | hx
      · exact Or.inr (List.mem_cons_self _ _)
      · rcases ih hx with h1 | h2
        · exact Or.inl h1
        · exact Or.inr (List.mem_cons_of_mem _ h2)

theorem deleteItem_sublist (k : ProductKind) (i : Nat) (l : List CartItem) :
    List.Sublist (deleteItem k i l) l := by
  induction l with
  | nil => exact List.Sublist.refl _
  | cons y ys ih =>
    rw [deleteItem]
    split
    · exact List.sublist_cons_self _ _
    · exact List.Sublist.cons₂ _ ih

theorem save_resolves {cat : Catalog} {it : CartItem} {p : Product}
    (hres : resolve cat it.content_type it.object_id = some p) :
    save cat it = { it with product_price := p.price_in_euros,
                            product_weight := p.weight_in_kilograms } := by
  simp [save, hres]

theorem save_quantity (cat : Catalog) (it : CartItem) :
    (save cat it).quantity = it.quantity := by
  cases hr : resolve cat it.content_type it.object_id <;> simp [save, hr]

theorem save_itemKey (cat : Catalog) (it : CartItem) :
    itemKey (save cat it) = itemKey it := by
  cases hr : resolve cat it.content_type it.object_id <;> simp [save, itemKey, hr]

theorem save_content_type (cat : Catalog) (it : CartItem) :
    (save cat it).content_type = it.content_type := by
  cases hr : resolve cat it.content_type it.object_id <;> simp [save, hr]

theorem save_object_id (cat : Catalog) (it : CartItem) :
    (save cat it).object_id = it.object_id := by
  cases hr : resolve cat it.content_type it.object_id <;> simp [save, hr]

theorem map_itemKey_replaceItem {k : ProductKind} {i : Nat} {n : CartItem}
    (l : List CartItem) (hn : n.content_type = k ∧ n.object_id = i) :
    (replaceItem k i n l).map itemKey = l.map itemKey := by
  induction l with
  | nil => rfl
  | cons y ys ih =>
    by_cases hy : y.content_type = k ∧ y.object_id = i
    · simp [replaceItem, hy, itemKey, hn.1, hn.2, hy.1, hy.2]
    · simp [replaceItem, hy, ih]

theorem cartInv_add_product (cat : Catalog) (cart : List CartItem)
    (product : Product) {q : Nat} (hq : 1 ≤ q) (h : cartInv cart) :
    cartInv (add_product cat cart product q).1 := by
  cases hfind : findItem product.kind product.id cart with
  | some it =>
    simp only [add_product, hfind]
    intro x hx
    rcases mem_replaceItem hx with rfl | hx'
    · rw [save_quantity]
      have := h it (findItem_some hfind).2.2
      simp only [CartItem.quantity]
      omega
    · exact h x hx'
  | none =>
    simp only [add_product, hfind]
    intro x hx
    rcases List.mem_append.mp hx with hx' | hx'
    · exact h x hx'
    · rcases List.mem_singleton.mp hx' with rfl
      rw [save_quantity]
      exact hq

theorem cartInv_remove_product (cat : Catalog) (cart : List CartItem)
    (product : Product) (q : Nat) (h : cartInv cart) :
    cartInv (remove_product cat cart product q).1 := by
  cases hfind : findItem product.kind product.id cart with
  | none =>
    simp only [remove_product, hfind]
    exact h
  | some it =>
    by_cases hle : it.quantity ≤ q
    · simp only [remove_product, hfind, if_pos hle]
      intro x hx
      exact h x ((deleteItem_sublist _ _ _).mem hx)
    · simp only [remove_product, hfind, if_neg hle]
      intro x hx
      rcases mem_replaceItem hx with rfl | hx'
      · rw [save_quantity]
        simp only [CartItem.quantity]
        omega
      · exact h x hx'

theorem keysUnique_add_product (cat : Catalog) (cart : List CartItem)
    (product : Product) (q : Nat) (h : keysUnique cart) :
    keysUnique (add_product cat cart product q).1 := by
  cases hfind : findItem product.kind product.id cart with
  | some it =>
    simp only [add_product, hfind]
    unfold keysUnique
    rw [map_itemKey_replaceItem]
    · exact h
    · exact ⟨(save_content_type _ _).trans (findItem_some hfind).1,
        (save_object_id _ _).trans (findItem_some hfind).2.1⟩
  | none =>
    simp only [add_product, hfind]
    unfold keysUnique
    rw [List.map_append, List.nodup_append]
    refine ⟨h, List.nodup_singleton _, ?_⟩
    intro a ha hb
    rcases List.mem_map.mp ha with ⟨x, hxmem, rfl⟩
    rcases List.mem_map.mp hb with ⟨y, hy, hxy⟩
    rcases List.mem_singleton.mp hy with rfl
    rw [save_itemKey] at hxy
    exact findItem_none hfind x hxmem
      ⟨(congrArg Prod.fst hxy).symm, (congrArg Prod.snd hxy).symm⟩

theorem keysUnique_remove_product (cat : Catalog) (cart : List CartItem)
    (product : Product) (q : Nat) (h : keysUnique cart) :
    keysUnique (remove_product cat cart product q).1 := by
  cases hfind : findItem product.kind product.id cart with
  | none =>
    simp only [remove_product, hfind]
    exact h
  | some it =>
    by_cases hle : it.quantity ≤ q
    · simp only [remove_product, hfind, if_pos hle]
      exact h.sublist ((deleteItem_sublist _ _ _).map itemKey)
    · simp only [remove_product, hfind, if_neg hle]
      unfold keysUnique
      rw [map_itemKey_replaceItem]
      · exact h
      · exact ⟨(save_content_type _ _).trans (findItem_some hfind).1,
          (save_object_id _ _).trans (findItem_some hfind).2.1⟩

end Store

namespace Store

/-! ### Claims -/

/-- C3: for every cart, `calculate_total_price` equals the sum over the
cart's items of `quantity * product_price` and `calculate_total_weight` the
sum of `quantity * product_weight`; on an empty cart both return exactly 0
rather than an error or null. -/
theorem C3_totals (cart : List CartItem) :
    calculate_total_price cart
        = (cart.map fun it => (it.quantity : Int) * it.product_price).sum
    ∧ calculate_total_weight cart
        = (cart.map fun it => (it.quantity : Int) * it.product_weight).sum
    ∧ calculate_total_price [] = 0
    ∧ calculate_total_weight [] = 0 := by
  refine ⟨?_, ?_, rfl, rfl⟩ <;>
    cases cart with
    | nil => rfl
    | cons x xs => exact orZero_some _

/-- C8: `clear_cart` deletes exactly the rows belonging to the given cart
(this cart's item list becomes empty, any other cart's item list is
untouched), it is idempotent, and `get_totals` after clearing yields total
price 0, total weight 0 and item count 0. -/
theorem C8_clear_cart (table : ItemTable) (cartId cid : Nat) :
    cartItems (clear_cart table cartId) cartId = []
    ∧ clear_cart (clear_cart table cartId) cartId = clear_cart table cartId
    ∧ get_totals (cartItems (clear_cart table cartId) cartId) = (0, 0, 0)
    ∧ (¬ cid = cartId → cartItems (clear_cart table cartId) cid = cartItems table cid) := by
  have h1 := cartItems_clear_cart table cartId cartId
  rw [if_pos rfl] at h1
  refine ⟨h1, clear_cart_idem table cartId, ?_, ?_⟩
  · rw [h1]; rfl
  · intro h
    have h2 := cartItems_clear_cart table cartId cid
    rwa [if_neg h] at h2

/-- C8 witness: a two-cart table, clearing cart 10 empties it, leaves cart
20 alone, and the totals of cart 10 are all zero. -/
theorem C8_clear_cart_witness :
    cartItems (clear_cart [(10, exItemBook), (20, exItemAlbum)] 10) 10 = []
    ∧ clear_cart (clear_cart [(10, exItemBook), (20, exItemAlbum)] 10) 10
        = clear_cart [(10, exItemBook), (20, exItemAlbum)] 10
    ∧ get_totals (cartItems (clear_cart [(10, exItemBook), (20, exItemAlbum)] 10) 10)
        = (0, 0, 0)
    ∧ (¬ (20 : Nat) = 10 →
        cartItems (clear_cart [(10, exItemBook), (20, exItemAlbum)] 10) 20
          = cartItems [(10, exItemBook), (20, exItemAlbum)] 20) :=
  C8_clear_cart [(10, exItemBook), (20, exItemAlbum)] 10 20

/-- C9: when the generic foreign key of a cart item no longer resolves (the
product row was deleted), `save` succeeds and leaves the cached price and
weight at their previous values instead of refreshing them. -/
theorem C9_save_unresolvable (cat : Catalog) (it : CartItem)
    (h : resolve cat it.content_type it.object_id = none) :
    save cat it = it := by
  simp [save, h]

/-- C9 witness: saving the book item against a catalog in which the book was
deleted keeps the row exactly as it was. -/
theorem C9_save_unresolvable_witness :
    save [exAlbum] exItemBook = exItemBook :=
  C9_save_unresolvable [exAlbum] exItemBook (by decide)

/-- C1: `add_product` on a product that resolves to catalog row `p`: if a row
with this (cart, kind, id) key exists, its quantity is incremented by `q` and
the row re-saved with price/weight refreshed from the live product; if none
exists, a new row is appended with quantity `q` and price/weight snapshotted
from the resolved product; the created or updated item is returned. -/
theorem C1_add_product (cat : Catalog) (cart : List CartItem) (product : Product)
    (q : Nat) (p : Product) (it : CartItem)
    (hres : resolve cat product.kind product.id = some p) :
    (findItem product.kind product.id cart = some it →
      add_product cat cart product q =
        (replaceItem product.kind product.id
            ⟨product.kind, product.id, it.quantity + q,
              p.price_in_euros, p.weight_in_kilograms⟩ cart,
          ⟨product.kind, product.id, it.quantity + q,
            p.price_in_euros, p.weight_in_kilograms⟩))
    ∧ (findItem product.kind product.id cart = none →
      add_product cat cart product q =
        (cart ++ [⟨product.kind, product.id, q,
            p.price_in_euros, p.weight_in_kilograms⟩],
          ⟨product.kind, product.id, q,
            p.price_in_euros, p.weight_in_kilograms⟩)) := by
  constructor
  · intro hfind
    obtain ⟨hk, hi, -⟩ := findItem_some hfind
    obtain ⟨ck, oi, qt, pp, pw⟩ := it
    simp only [CartItem.content_type] at hk
    simp only [CartItem.object_id] at hi
    subst hk
    subst hi
    have hsave : save cat ⟨product.kind, product.id, qt + q, pp, pw⟩ =
        ⟨product.kind, product.id, qt + q,
          p.price_in_euros, p.weight_in_kilograms⟩ := by
      rw [save_resolves hres]
    simp only [add_product, hfind, hsave]
  · intro hfind
    have hsave : save cat ⟨product.kind, product.id, q,
        product.price_in_euros, product.weight_in_kilograms⟩ =
        ⟨product.kind, product.id, q,
          p.price_in_euros, p.weight_in_kilograms⟩ := by
      rw [save_resolves hres]
    simp only [add_product, hfind, hsave]

/-- C1 witness: against the catalog where the book's price changed to 12.00,
adding the book to a cart that already holds it increments the line and
refreshes the cache; adding it to a cart without it appends a fresh line. -/
theorem C1_add_product_witness :
    add_product exCatalog' [exItemBook, exItemAlbum] exBook 3 =
      (replaceItem ProductKind.book 1
          ⟨ProductKind.book, 1, 2 + 3, 1200, 175⟩ [exItemBook, exItemAlbum],
        ⟨ProductKind.book, 1, 2 + 3, 1200, 175⟩)
    ∧ add_product exCatalog' [exItemAlbum] exBook 3 =
      ([exItemAlbum] ++ [⟨ProductKind.book, 1, 3, 1200, 175⟩],
        ⟨ProductKind.book, 1, 3, 1200, 175⟩) := by
  constructor
  · exact (C1_add_product exCatalog' [exItemBook, exItemAlbum] exBook 3 exBook'
      exItemBook (by decide)).1 (by decide)
  · exact (C1_add_product exCatalog' [exItemAlbum] exBook 3 exBook'
      exItemBook (by decide)).2 (by decide)

/-- C2: `remove_product` on an absent line returns `false` and changes no
state; on a present line with quantity ≤ q it deletes the line and returns
`true`; otherwise it subtracts q, re-saves the line and returns `true`. -/
theorem C2_remove_product (cat : Catalog) (cart : List CartItem)
    (product : Product) (q : Nat) (it : CartItem) :
    (findItem product.kind product.id cart = none →
      remove_product cat cart product q = (cart, false))
    ∧ (findItem product.kind product.id cart = some it → it.quantity ≤ q →
      remove_product cat cart product q =
        (deleteItem product.kind product.id cart, true))
    ∧ (findItem product.kind product.id cart = some it → q < it.quantity →
      remove_product cat cart product q =
        (replaceItem product.kind product.id
          (save cat { it with quantity := it.quantity - q }) cart, true)) := by
  refine ⟨?_, ?_, ?_⟩
  · intro h
    simp only [remove_product, h]
  · intro h hle
    simp only [remove_product, h]
    rw [if_pos hle]
  · intro h hlt
    simp only [remove_product, h]
    rw [if_neg (not_le.mpr hlt)]

/-- C2 witness: removing the absent book returns `(cart, false)`; removing
quantity 2 from the book line of quantity 2 deletes it; removing quantity 1
decrements and re-saves it. -/
theorem C2_remove_product_witness :
    remove_product exCatalog [exItemAlbum] exBook 1 = ([exItemAlbum], false)
    ∧ remove_product exCatalog [exItemBook, exItemAlbum] exBook 2 =
        (deleteItem ProductKind.book 1 [exItemBook, exItemAlbum], true)
    ∧ remove_product exCatalog [exItemBook, exItemAlbum] exBook 1 =
        (replaceItem ProductKind.book 1
          (save exCatalog { exItemBook with quantity := exItemBook.quantity - 1 })
          [exItemBook, exItemAlbum], true) := by
  refine ⟨?_, ?_, ?_⟩
  · exact (C2_remove_product exCatalog [exItemAlbum] exBook 1 exItemBook).1
      (by decide)
  · exact (C2_remove_product exCatalog [exItemBook, exItemAlbum] exBook 2
      exItemBook).2.1 (by decide) (by decide)
  · exact (C2_remove_product exCatalog [exItemBook, exItemAlbum] exBook 1
      exItemBook).2.2 (by decide) (by decide)

/-- C7: a quantity < 1 supplied to the upsert path fails with
`InvalidQuantity` and leaves the cart exactly as it was. -/
theorem C7_invalid_quantity (cat : Catalog) (cart : List CartItem)
    (product : Product) (q : Int) (h : q < 1) :
    upsert cat cart product q = (cart, Except.error CartError.invalidQuantity) := by
  rw [upsert, if_pos h]

/-- C7 witness: quantity 0 is rejected and the cart is unchanged. -/
theorem C7_invalid_quantity_witness :
    upsert exCatalog [exItemAlbum] exBook 0 =
      ([exItemAlbum], Except.error CartError.invalidQuantity) :=
  C7_invalid_quantity exCatalog [exItemAlbum] exBook 0 (by decide)

/-- C10: `remove_product` with quantity 0 on a present line (quantity ≥ 1)
returns `true` and leaves the line present with its quantity unchanged, but
re-saves it, refreshing the cached price/weight from the live product. -/
theorem C10_remove_zero (cat : Catalog) (cart : List CartItem)
    (product : Product) (it : CartItem) (p : Product)
    (hfind : findItem product.kind product.id cart = some it)
    (hq : 1 ≤ it.quantity)
    (hres : resolve cat product.kind product.id = some p) :
    remove_product cat cart product 0 =
      (replaceItem product.kind product.id
        ⟨product.kind, product.id, it.quantity,
          p.price_in_euros, p.weight_in_kilograms⟩ cart, true) := by
  obtain ⟨hk, hi, -⟩ := findItem_some hfind
  obtain ⟨ck, oi, qt, pp, pw⟩ := it
  simp only [CartItem.content_type] at hk
  simp only [CartItem.object_id] at hi
  simp only [CartItem.quantity] at hq
  subst hk
  subst hi
  have hsave : save cat ⟨product.kind, product.id, qt - 0, pp, pw⟩ =
      ⟨product.kind, product.id, qt,
        p.price_in_euros, p.weight_in_kilograms⟩ := by
    rw [save_resolves hres]
    simp
  simp only [remove_product, hfind]
  rw [if_neg (by omega)]
  simp only [hsave]

/-- C10 witness: removing quantity 0 of the book (line quantity 2, catalog
price now 12.00) keeps the line at quantity 2 with refreshed cache and
returns `true`. -/
theorem C10_remove_zero_witness :
    remove_product exCatalog' [exItemBook] exBook 0 =
      (replaceItem ProductKind.book 1
        ⟨ProductKind.book, 1, 2, 1200, 175⟩ [exItemBook], true) :=
  C10_remove_zero exCatalog' [exItemBook] exBook exItemBook exBook'
    (by decide) (by decide) (by decide)

/-- C5: if every line of a cart has quantity ≥ 1, then after the validated
upsert (any supplied quantity, including rejected ones), after
`remove_product` (any quantity) and after clearing, every remaining line
still has quantity ≥ 1 — a line whose remaining quantity would be ≤ 0 does
not stay present. -/
theorem C5_quantity_invariant (cat : Catalog) (cart : List CartItem)
    (productA productR : Product) (q : Int) (qr : Nat)
    (table : ItemTable) (cartId : Nat)
    (h : cartInv cart) :
    cartInv (upsert cat cart productA q).1
    ∧ cartInv (remove_product cat cart productR qr).1
    ∧ cartInv (cartItems (clear_cart table cartId) cartId) := by
  refine ⟨?_, cartInv_remove_product cat cart productR qr h, ?_⟩
  · by_cases hq : q < 1
    · rw [upsert, if_pos hq]
      exact h
    · rw [upsert, if_neg hq]
      exact cartInv_add_product cat cart productA (by omega) h
  · rw [cartItems_clear_cart, if_pos rfl]
    intro x hx
    simp at hx

/-- C5 witness: the invariant holds for a concrete one-line cart and is kept
by an upsert of the album, a removal of one book and a clear. -/
theorem C5_quantity_invariant_witness :
    cartInv (upsert exCatalog [exItemBook] exAlbum 2).1
    ∧ cartInv (remove_product exCatalog [exItemBook] exBook 1).1
    ∧ cartInv (cartItems (clear_cart [(10, exItemBook)] 10) 10) :=
  C5_quantity_invariant exCatalog [exItemBook] exAlbum exBook 2 1
    [(10, exItemBook)] 10 (by decide)

/-- C6: if no two lines of a cart share a (content_type, object_id) key,
the same holds after `add_product` — in particular after a repeated
`add_product` of the same product — after `remove_product`, and after
clearing the cart. -/
theorem C6_key_uniqueness (cat : Catalog) (cart : List CartItem)
    (productA productR : Product) (q q2 qr : Nat)
    (table : ItemTable) (cartId : Nat)
    (h : keysUnique cart) :
    keysUnique (add_product cat cart productA q).1
    ∧ keysUnique (add_product cat (add_product cat cart productA q).1 productA q2).1
    ∧ keysUnique (remove_product cat cart productR qr).1
    ∧ keysUnique (cartItems (clear_cart table cartId) cartId) := by
  refine ⟨keysUnique_add_product cat cart productA q h,
    keysUnique_add_product cat _ productA q2
      (keysUnique_add_product cat cart productA q h),
    keysUnique_remove_product cat cart productR qr h, ?_⟩
  rw [cartItems_clear_cart, if_pos rfl]
  unfold keysUnique
  simp

/-- C6 witness: key uniqueness of a two-line cart survives an add of the
book, a second add of the same book, a removal and a clear. -/
theorem C6_key_uniqueness_witness :
    keysUnique (add_product exCatalog [exItemBook, exItemAlbum] exBook 3).1
    ∧ keysUnique (add_product exCatalog
        (add_product exCatalog [exItemBook, exItemAlbum] exBook 3).1 exBook 4).1
    ∧ keysUnique (remove_product exCatalog [exItemBook, exItemAlbum] exBook 1).1
    ∧ keysUnique (cartItems (clear_cart [(10, exItemBook)] 10) 10) :=
  C6_key_uniqueness exCatalog [exItemBook, exItemAlbum] exBook exBook 3 4 1
    [(10, exItemBook)] 10 (by decide)

/-- C4 counterexample: it is not true that every save of a CartItem
overwrites the cached price and weight from the live referenced product —
for the book line saved against a catalog from which the book was deleted,
no live product exists and the cache is left untouched. -/
theorem C4_save_unconditional_cex :
    ¬ (∀ (cat : Catalog) (it : CartItem), ∃ p : Product,
        resolve cat it.content_type it.object_id = some p
        ∧ (save cat it).product_price = p.price_in_euros
        ∧ (save cat it).product_weight = p.weight_in_kilograms) := by
  intro hclaim
  obtain ⟨p, hp, -, -⟩ := hclaim [exAlbum] exItemBook
  simp [resolve, exAlbum, exItemBook] at hp

/-- C4 (amended): every save of a CartItem whose referenced product still
resolves overwrites the cached price and weight from that product; hence
after adding the same (resolvable) product a second time the single
resulting line has quantity q1+q2 and cache equal to the product's current
price/weight. -/
theorem C4_save_refresh (cat : Catalog) (product p : Product) (q1 q2 : Nat)
    (hres : resolve cat product.kind product.id = some p) :
    (∀ it : CartItem, it.content_type = product.kind → it.object_id = product.id →
      (save cat it).product_price = p.price_in_euros
      ∧ (save cat it).product_weight = p.weight_in_kilograms)
    ∧ ((add_product cat (add_product cat [] product q1).1 product q2).2.quantity
          = q1 + q2
      ∧ (add_product cat (add_product cat [] product q1).1 product q2).2.product_price
          = p.price_in_euros
      ∧ (add_product cat (add_product cat [] product q1).1 product q2).2.product_weight
          = p.weight_in_kilograms
      ∧ (add_product cat (add_product cat [] product q1).1 product q2).1
          = [(add_product cat (add_product cat [] product q1).1 product q2).2]) := by
  constructor
  · intro it hk hi
    have hres' : resolve cat it.content_type it.object_id = some p := by
      rw [hk, hi]
      exact hres
    rw [save_resolves hres']
    exact ⟨rfl, rfl⟩
  · have hsave1 : save cat ⟨product.kind, product.id, q1,
        product.price_in_euros, product.weight_in_kilograms⟩ =
        ⟨product.kind, product.id, q1, p.price_in_euros, p.weight_in_kilograms⟩ := by
      rw [save_resolves hres]
    have h1 : add_product cat [] product q1 =
        ([⟨product.kind, product.id, q1, p.price_in_euros, p.weight_in_kilograms⟩],
         ⟨product.kind, product.id, q1, p.price_in_euros, p.weight_in_kilograms⟩) := by
      simp [add_product, findItem, hsave1]
    have hfind2 : findItem product.kind product.id
        [⟨product.kind, product.id, q1, p.price_in_euros, p.weight_in_kilograms⟩] =
        some ⟨product.kind, product.id, q1, p.price_in_euros, p.weight_in_kilograms⟩ := by
      rw [findItem, if_pos ⟨rfl, rfl⟩]
    have hsave2 : save cat ⟨product.kind, product.id, q1 + q2,
        p.price_in_euros, p.weight_in_kilograms⟩ =
        ⟨product.kind, product.id, q1 + q2,
          p.price_in_euros, p.weight_in_kilograms⟩ := by
      rw [save_resolves hres]
    have h2 : add_product cat
        [⟨product.kind, product.id, q1, p.price_in_euros, p.weight_in_kilograms⟩]
        product q2 =
        ([⟨product.kind, product.id, q1 + q2,
            p.price_in_euros, p.weight_in_kilograms⟩],
         ⟨product.kind, product.id, q1 + q2,
           p.price_in_euros, p.weight_in_kilograms⟩) := by
      simp only [add_product, hfind2]
      simp only [replaceItem]
      simp [hsave2]
    simp only [h1, h2]
    simp

/-- C4 witness: starting from an empty cart against the catalog where the
book now costs 12.00, adding the book with quantities 2 then 3 yields one
line of quantity 5 cached at the current price; saving the stale book line
against that catalog refreshes its cache to 12.00 / 1.75. -/
theorem C4_save_refresh_witness :
    (save exCatalog' exItemBook).product_price = 1200
    ∧ (save exCatalog' exItemBook).product_weight = 175
    ∧ (add_product exCatalog' (add_product exCatalog' [] exBook 2).1 exBook 3).2.quantity
        = 2 + 3
    ∧ (add_product exCatalog' (add_product exCatalog' [] exBook 2).1 exBook 3).2.product_price
        = 1200 := by
  have h := C4_save_refresh exCatalog' exBook exBook' 2 3 (by decide)
  obtain ⟨hall, h1, h2, -, -⟩ := h
  have hb := hall exItemBook (by decide) (by decide)
  exact ⟨hb.1, hb.2, h1, h2⟩

end Store
